import Mathlib

/-!
Verification of the dubdub-demo backend (src/backend/server.py) against its
natural-language specification.

The embedding models the MongoDB state as lists of documents and each FastAPI
endpoint of the core (feed selection, answer grading, skip, category
selection) as a pure function from a database state to a new database state
together with an HTTP-level result (`Except ApiError R`).  Mongo operations
are translated as follows: `find_one(q)` is `List.find?` (first match),
`insert_one` appends to the list, `update_one` with `$set`/`$inc` rewrites
the first matching document, and the `$sample` aggregation stage is modelled
by passing the sampled list as an explicit argument constrained to come from
the `$match`-filtered pool.  Document fields that are never read by the
modelled operations (timestamps, e-mail, pictures, question payloads, FEN
strings) are omitted; optional Mongo keys are `Option` fields.
-/

namespace DubDub

/-- A user document in the `users` collection (server.py lines 31-42 and the
documents inserted at lines 154-166).  The `skipped` counter is not part of
the pydantic model; it is a raw Mongo field created by `$inc` on first skip,
so `0` stands for an absent key (which is exactly how `$inc` treats it). -/
structure User where
  user_id : String
  total_played : Nat
  correct_answers : Nat
  current_streak : Nat
  best_streak : Nat
  skipped : Nat
  selected_categories : Option (List String)
  onboarding_complete : Bool
deriving Repr, DecidableEq

/-- A playable document (server.py lines 51-64).  `ptype` is the source field
`type` (a Lean keyword).  Question payload, video offsets, FEN and solution
are never read by the feed or grading logic and are omitted. -/
structure Playable where
  playable_id : String
  ptype : String
  answer_type : String
  category : String
  title : String
  correct_answer : String
  alternate_answers : Option (List String)
  answer_explanation : Option String
  hints : Option (List String)
deriving Repr, DecidableEq

/-- A document of the `user_progress` collection.  The three writers insert
different key sets: answer submissions (lines 631-637) have no `skipped` /
`hints_used` / `moves_used` keys, guess submissions (lines 729-736) add
`hints_used`, chess submissions (lines 819-826) add `moves_used`, and skips
(lines 895-902) add `skipped`.  Absent keys are `none`; the timestamp is
never read and is omitted. -/
structure ProgressRecord where
  user_id : String
  playable_id : String
  answered : Bool
  correct : Bool
  skipped : Option Bool
  hints_used : Option Int
  moves_used : Option Int
deriving Repr, DecidableEq

/-- The database state: the three collections the core reads and writes. -/
structure DB where
  users : List User
  playables : List Playable
  user_progress : List ProgressRecord
deriving Repr, DecidableEq

/-- Request body of POST /playables/:id/answer (server.py lines 66-67). -/
structure AnswerSubmission where
  answer : String
deriving Repr, DecidableEq

/-- Request body of POST /playables/:id/guess-answer (lines 69-71);
`hint_number` is a caller-supplied, unvalidated Python int. -/
structure GuessAnswerSubmission where
  answer : String
  hint_number : Int
deriving Repr, DecidableEq

/-- Request body of POST /playables/:id/chess-solved (lines 792-794). -/
structure ChessPuzzleSubmission where
  solved : Bool
  moves_used : Int
deriving Repr, DecidableEq

/-- Request body of POST /categories/select (lines 87-88). -/
structure CategorySelectionRequest where
  categories : List String
deriving Repr, DecidableEq

/-- The HTTPException outcomes raised by the modelled endpoints: 404, 400 and
the blanket `except Exception` 500 handler. -/
inductive ApiError where
  | notFound (detail : String)
  | badRequest (detail : String)
  | serverError
deriving Repr, DecidableEq

/-- JSON response of submit_answer (lines 663-671). -/
structure AnswerResult where
  correct : Bool
  correct_answer : String
  answer_explanation : Option String
  current_streak : Nat
  best_streak : Nat
  total_played : Nat
  correct_answers : Nat
deriving Repr, DecidableEq

/-- JSON response of submit_guess_answer.  The conclusive shape (lines
762-773) carries the counters and no `reveal_next_hint` key; the inconclusive
shape (lines 776-784) carries `reveal_next_hint: True` and no counters.
Keys absent from a shape are `none`. -/
structure GuessAnswerResult where
  correct : Bool
  correct_answer : Option String
  feedback_message : String
  hints_used : Int
  total_hints : Nat
  all_hints_exhausted : Bool
  reveal_next_hint : Option Bool
  current_streak : Option Nat
  best_streak : Option Nat
  total_played : Option Nat
  correct_answers : Option Nat
deriving Repr, DecidableEq

/-- JSON response of submit_chess_puzzle_result (lines 852-859). -/
structure ChessResult where
  correct : Bool
  moves_used : Int
  current_streak : Nat
  best_streak : Nat
  total_played : Nat
  correct_answers : Nat
deriving Repr, DecidableEq

/-- JSON response of skip_playable (lines 914-919). -/
structure SkipResult where
  skipped : Bool
  playable_id : String
  current_streak : Nat
  total_skipped : Nat
deriving Repr, DecidableEq

/-- JSON response of select_categories (lines 479-483). -/
structure SelectCategoriesResult where
  success : Bool
  message : String
  selected_categories : List String
deriving Repr, DecidableEq

/-- Python `s.strip().lower()` as used for answer normalization (lines 620,
624, 700, 704): drop leading and trailing whitespace, then lower-case each
character (`Char.isWhitespace` / `Char.toLower` agree with Python on the
ASCII range handled by the app). -/
def stripLower (s : String) : String :=
  String.mk
    ((((s.data.dropWhile Char.isWhitespace).reverse.dropWhile Char.isWhitespace).reverse).map
      Char.toLower)

/-- `db.playables.find_one({"playable_id": pid})`. -/
def findPlayable (db : DB) (pid : String) : Option Playable :=
  db.playables.find? (fun p => p.playable_id == pid)

/-- `db.users.find_one({"user_id": uid})`. -/
def findUser (db : DB) (uid : String) : Option User :=
  db.users.find? (fun u => u.user_id == uid)

/-- Mongo `update_one({"user_id": uid}, ...)`: rewrite the first matching
document, leave the rest untouched (no-op when no document matches). -/
def updateUser (users : List User) (uid : String) (f : User → User) : List User :=
  match users with
  | [] => []
  | u :: rest => if u.user_id == uid then f u :: rest else u :: updateUser rest uid f

/-- The answer check shared by submit_answer (lines 620-628) and
submit_guess_answer (lines 700-708): case-insensitive trimmed comparison with
`correct_answer`, then with each entry of `alternate_answers`.  A missing or
empty alternate list contributes nothing (Python treats both as falsy; the
loop over an empty list matches nothing, so the two coincide). -/
def checkAnswer (playable : Playable) (answer : String) : Bool :=
  if stripLower answer == stripLower playable.correct_answer then true
  else
    match playable.alternate_answers with
    | some alts => alts.any (fun alt => stripLower answer == stripLower alt)
    | none => false

/-- The stats-update block repeated verbatim in submit_answer (lines
643-651), submit_guess_answer (lines 742-750) and
submit_chess_puzzle_result (lines 832-840): compute the new counters from
the freshly read user document. -/
def apply_grading_stats (user_doc : User) (is_correct : Bool) : User :=
  let new_total_played := user_doc.total_played + 1
  let new_correct_answers := user_doc.correct_answers + (if is_correct then 1 else 0)
  let new_current_streak := if is_correct then user_doc.current_streak + 1 else 0
  let new_best_streak :=
    if is_correct then max user_doc.best_streak (user_doc.current_streak + 1)
    else user_doc.best_streak
  { user_doc with
    total_played := new_total_played
    correct_answers := new_correct_answers
    current_streak := new_current_streak
    best_streak := new_best_streak }

/-- POST /playables/:playable_id/answer (server.py lines 602-677).  404 when
the playable is absent; otherwise grade, insert a progress document, then
read the user document and `$set` the four counters.  A missing user document
makes `user_doc["total_played"]` raise, which the blanket handler turns into
a 500 — with the progress document already inserted, as in Mongo. -/
def submit_answer (db : DB) (uid : String) (pid : String)
    (submission : AnswerSubmission) : DB × Except ApiError AnswerResult :=
  match findPlayable db pid with
  | none => (db, .error (.notFound "Playable not found"))
  | some playable =>
    let is_correct := checkAnswer playable submission.answer
    let progress : ProgressRecord :=
      { user_id := uid, playable_id := pid, answered := true, correct := is_correct
        skipped := none, hints_used := none, moves_used := none }
    let db1 : DB := { db with user_progress := db.user_progress ++ [progress] }
    match findUser db1 uid with
    | none => (db1, .error .serverError)
    | some user_doc =>
      let user1 := apply_grading_stats user_doc is_correct
      let db2 : DB :=
        { db1 with
          users := updateUser db1.users uid (fun u =>
            { u with
              total_played := user1.total_played
              correct_answers := user1.correct_answers
              current_streak := user1.current_streak
              best_streak := user1.best_streak }) }
      (db2, .ok
        { correct := is_correct
          correct_answer := playable.correct_answer
          answer_explanation := playable.answer_explanation
          current_streak := user1.current_streak
          best_streak := user1.best_streak
          total_played := user1.total_played
          correct_answers := user1.correct_answers })

/-- The fixed feedback list of submit_guess_answer (server.py lines
715-721), transcribed code point for code point (the source file stores the
emoji double-encoded; the escapes below reproduce exactly the code points
that Python reads from it). -/
def feedback_messages : List String :=
  [ "Incredible! You\x27re a mind reader! ðŸ§ "
  , "Impressive! You\x27ve got sharp instincts! ðŸŽ¯"
  , "Well done! You really know your stuff! ðŸ’ª"
  , "Nice work! You figured it out! ðŸ‘"
  , "Got it! Better late than never! âœ“" ]

/-- Python list subscription `l[i]` for a possibly negative index: `none`
models an IndexError. -/
def pyIdx (l : List String) (i : Int) : Option String :=
  if 0 ≤ i then l[i.toNat]?
  else if 0 ≤ i + l.length then l[(i + l.length).toNat]?
  else none

/-- POST /playables/:playable_id/guess-answer (server.py lines 679-790).
404 when absent, 400 when the playable is not guess_the_x; the submission is
conclusive iff correct or `hint_number >= total_hints`.  `playable.get
("hints", [])` is `hints.getD []` (guess playables always carry a hint
list).  An out-of-range feedback subscription raises IndexError, which the
blanket handler turns into a 500 before anything is written. -/
def submit_guess_answer (db : DB) (uid : String) (pid : String)
    (submission : GuessAnswerSubmission) : DB × Except ApiError GuessAnswerResult :=
  match findPlayable db pid with
  | none => (db, .error (.notFound "Playable not found"))
  | some playable =>
    if playable.ptype ≠ "guess_the_x" then
      (db, .error (.badRequest "This endpoint is only for \x27Guess the X\x27 playables"))
    else
      let is_correct := checkAnswer playable submission.answer
      let hints := playable.hints.getD []
      let total_hints := hints.length
      let hint_number := submission.hint_number
      let feedback? : Option String :=
        if is_correct = true ∧ hint_number ≤ (feedback_messages.length : Int) then
          pyIdx feedback_messages (hint_number - 1)
        else some ""
      match feedback? with
      | none => (db, .error .serverError)
      | some feedback_message =>
        if is_correct = true ∨ (total_hints : Int) ≤ hint_number then
          let progress : ProgressRecord :=
            { user_id := uid, playable_id := pid, answered := true, correct := is_correct
              skipped := none, hints_used := some hint_number, moves_used := none }
          let db1 : DB := { db with user_progress := db.user_progress ++ [progress] }
          match findUser db1 uid with
          | none => (db1, .error .serverError)
          | some user_doc =>
            let user1 := apply_grading_stats user_doc is_correct
            let db2 : DB :=
              { db1 with
                users := updateUser db1.users uid (fun u =>
                  { u with
                    total_played := user1.total_played
                    correct_answers := user1.correct_answers
                    current_streak := user1.current_streak
                    best_streak := user1.best_streak }) }
            (db2, .ok
              { correct := is_correct
                correct_answer := some playable.correct_answer
                feedback_message := feedback_message
                hints_used := hint_number
                total_hints := total_hints
                all_hints_exhausted :=
                  decide ((total_hints : Int) ≤ hint_number) && !is_correct
                reveal_next_hint := none
                current_streak := some user1.current_streak
                best_streak := some user1.best_streak
                total_played := some user1.total_played
                correct_answers := some user1.correct_answers })
        else
          (db, .ok
            { correct := false
              correct_answer := none
              feedback_message := ""
              hints_used := hint_number
              total_hints := total_hints
              all_hints_exhausted := false
              reveal_next_hint := some true
              current_streak := none
              best_streak := none
              total_played := none
              correct_answers := none })

/-- POST /playables/:playable_id/chess-solved (server.py lines 796-865):
records the externally supplied result, always conclusive. -/
def submit_chess_puzzle_result (db : DB) (uid : String) (pid : String)
    (submission : ChessPuzzleSubmission) : DB × Except ApiError ChessResult :=
  match findPlayable db pid with
  | none => (db, .error (.notFound "Playable not found"))
  | some playable =>
    if playable.ptype ≠ "chess_mate_in_2" then
      (db, .error (.badRequest "This endpoint is for chess puzzles only"))
    else
      let is_correct := submission.solved
      let progress : ProgressRecord :=
        { user_id := uid, playable_id := pid, answered := true, correct := is_correct
          skipped := none, hints_used := none, moves_used := some submission.moves_used }
      let db1 : DB := { db with user_progress := db.user_progress ++ [progress] }
      match findUser db1 uid with
      | none => (db1, .error .serverError)
      | some user_doc =>
        let user1 := apply_grading_stats user_doc is_correct
        let db2 : DB :=
          { db1 with
            users := updateUser db1.users uid (fun u =>
              { u with
                total_played := user1.total_played
                correct_answers := user1.correct_answers
                current_streak := user1.current_streak
                best_streak := user1.best_streak }) }
        (db2, .ok
          { correct := is_correct
            moves_used := submission.moves_used
            current_streak := user1.current_streak
            best_streak := user1.best_streak
            total_played := user1.total_played
            correct_answers := user1.correct_answers })

/-- POST /playables/:playable_id/skip (server.py lines 878-925): insert a
skipped progress document, `$inc` the skipped counter, then re-read the user
document for the response (a missing user document makes the `.get` calls
raise on `None`, hence 500, with the writes already applied). -/
def skip_playable (db : DB) (uid : String) (pid : String) :
    DB × Except ApiError SkipResult :=
  match findPlayable db pid with
  | none => (db, .error (.notFound "Playable not found"))
  | some _playable =>
    let progress : ProgressRecord :=
      { user_id := uid, playable_id := pid, answered := false, correct := false
        skipped := some true, hints_used := none, moves_used := none }
    let db1 : DB := { db with user_progress := db.user_progress ++ [progress] }
    let db2 : DB :=
      { db1 with users := updateUser db1.users uid (fun u => { u with skipped := u.skipped + 1 }) }
    match findUser db2 uid with
    | none => (db2, .error .serverError)
    | some user_doc =>
      (db2, .ok
        { skipped := true
          playable_id := pid
          current_streak := user_doc.current_streak
          total_skipped := user_doc.skipped })

/-- POST /categories/select (server.py lines 457-488): fewer than 3
categories is a 400 raised before any write; otherwise `$set` the selection
and the onboarding flag on the user document. -/
def select_categories (db : DB) (uid : String) (request : CategorySelectionRequest) :
    DB × Except ApiError SelectCategoriesResult :=
  if request.categories.length < 3 then
    (db, .error (.badRequest "Please select at least 3 categories"))
  else
    let db1 : DB :=
      { db with
        users := updateUser db.users uid (fun u =>
          { u with
            selected_categories := some request.categories
            onboarding_complete := true }) }
    (db1, .ok
      { success := true
        message := "Categories saved successfully"
        selected_categories := request.categories })

/-- The hardcoded curated ordering of GET /playables/feed (server.py lines
507-518). -/
def CURATED_PLAYABLE_IDS : List String :=
  [ "play_fbf745c05db8"
  , "play_9c2d0aedae90"
  , "play_79d9fe88f784"
  , "play_1fdb01350d05"
  , "play_87f944dcfcb1"
  , "play_520619533384"
  , "play_9ddad6ff412e"
  , "play_3db9f04a1b9b"
  , "play_ae527aa40493"
  , "play_8b45d1dfbb71" ]

/-- `played_ids` (server.py lines 521-525): the playable_ids of the
progress documents found for this user, read with
`.to_list(length=10000)` - i.e. only the FIRST 10000 matching documents;
records beyond that cap are not seen by the feed.  The source builds a
Python set from them; only membership is ever used, so a list is an
equivalent model. -/
def played_ids (db : DB) (uid : String) : List String :=
  ((db.user_progress.filter (fun r => r.user_id == uid)).take 10000).map
    (fun r => r.playable_id)

/-- `unplayed_curated_ids` (line 530): curated order, minus played ids. -/
def unplayed_curated_ids (db : DB) (uid : String) : List String :=
  CURATED_PLAYABLE_IDS.filter (fun pid => !((played_ids db uid).contains pid))

/-- Phase 1 of the feed (lines 532-536): look each of the first `limit`
unplayed curated ids up in the store, dropping ids with no document. -/
def curated_results (db : DB) (uid : String) (limit : Nat) : List Playable :=
  ((unplayed_curated_ids db uid).take limit).filterMap (fun pid => findPlayable db pid)

/-- The `$match` pool of the phase-2 `$sample` pipeline (lines 549-554):
all playables excluding played ids and the curated list.  Note: no category
condition appears here or anywhere reachable in the endpoint. -/
def random_pool (db : DB) (uid : String) : List Playable :=
  db.playables.filter
    (fun p => !((played_ids db uid ++ CURATED_PLAYABLE_IDS).contains p.playable_id))

/-- GET /playables/feed (server.py lines 492-562; the code after the
`return` on line 562 is unreachable).  `sample` stands for the outcome of
the `$sample` stage; theorems constrain it to draw from `random_pool`. -/
def get_playables_feed (db : DB) (uid : String) (limit : Nat)
    (sample : List Playable) : List Playable :=
  let result_playables := curated_results db uid limit
  if limit ≤ result_playables.length then result_playables.take limit
  else
    let remaining_needed := limit - result_playables.length
    if 0 < remaining_needed then result_playables ++ sample else result_playables

/-- What Mongo guarantees about the `$sample` stage feeding phase 2: at most
`remaining_needed` documents, all drawn from the `$match`-filtered pool. -/
def ValidSample (db : DB) (uid : String) (limit : Nat) (sample : List Playable) : Prop :=
  sample.length ≤ limit - (curated_results db uid limit).length ∧
  ∀ p ∈ sample, p ∈ random_pool db uid

/-- A grading or skip request against the core, for reasoning about
sequences of interactions of one user. -/
inductive Op where
  | answer (pid : String) (submission : AnswerSubmission)
  | guess (pid : String) (submission : GuessAnswerSubmission)
  | chess (pid : String) (submission : ChessPuzzleSubmission)
  | skip (pid : String)
deriving Repr

/-- The database after one request (responses discarded). -/
def runOp (uid : String) (db : DB) : Op → DB
  | .answer pid s => (submit_answer db uid pid s).1
  | .guess pid s => (submit_guess_answer db uid pid s).1
  | .chess pid s => (submit_chess_puzzle_result db uid pid s).1
  | .skip pid => (skip_playable db uid pid).1

/-- The database after a sequence of requests by one user. -/
def runOps (uid : String) (db : DB) (ops : List Op) : DB :=
  ops.foldl (runOp uid) db

/-- The two cross-counter invariants of the Stats Aggregator. -/
def StatsInv (u : User) : Prop :=
  u.correct_answers ≤ u.total_played ∧ u.current_streak ≤ u.best_streak

/-- Monotonicity order on the three non-decreasing counters. -/
def StatsLe (u v : User) : Prop :=
  u.total_played ≤ v.total_played ∧ u.correct_answers ≤ v.correct_answers ∧
    u.best_streak ≤ v.best_streak

/-- A freshly created account (server.py lines 154-166). -/
def uFresh : User :=
  { user_id := "u1", total_played := 0, correct_answers := 0, current_streak := 0,
    best_streak := 0, skipped := 0, selected_categories := none,
    onboarding_complete := false }

def pParis : Playable :=
  { playable_id := "p1", ptype := "text", answer_type := "text_input",
    category := "GEOGRAPHY", title := "Capitals", correct_answer := "Paris",
    alternate_answers := none, answer_explanation := none, hints := none }

def pGuess : Playable :=
  { playable_id := "p9", ptype := "guess_the_x", answer_type := "text_input",
    category := "CRICKET", title := "Guess the player", correct_answer := "Rome",
    alternate_answers := none, answer_explanation := none,
    hints := some ["h1", "h2", "h3"] }

def dbPlain : DB := { users := [uFresh], playables := [pParis], user_progress := [] }

def dbGuess : DB := { users := [uFresh], playables := [pGuess], user_progress := [] }

def rC4 : ProgressRecord :=
  { user_id := "u1", playable_id := "p1", answered := true, correct := false,
    skipped := none, hints_used := none, moves_used := none }

def dbC4 : DB := { users := [uFresh], playables := [pParis], user_progress := [rC4] }

def pC2 : Playable :=
  { playable_id := "play_fbf745c05db8", ptype := "guess_the_x",
    answer_type := "text_input", category := "BOLLYWOOD", title := "Guess the film",
    correct_answer := "Answer A", alternate_answers := none,
    answer_explanation := none, hints := some ["h1", "h2", "h3"] }

def dbC2a : DB := { users := [uFresh], playables := [pC2], user_progress := [] }

def dbC2b : DB :=
  { users := [uFresh], playables := [{ pC2 with correct_answer := "Answer B" }],
    user_progress := [] }

def uC3 : User :=
  { user_id := "u1", total_played := 0, correct_answers := 0, current_streak := 0,
    best_streak := 0, skipped := 0,
    selected_categories := some ["SCIENCE", "HISTORY", "ART"],
    onboarding_complete := true }

def pC3 : Playable :=
  { playable_id := "pX", ptype := "text", answer_type := "mcq",
    category := "BOLLYWOOD", title := "Question", correct_answer := "a",
    alternate_answers := none, answer_explanation := none, hints := none }

def dbC3 : DB := { users := [uC3], playables := [pC3], user_progress := [] }

def uC1 : User :=
  { user_id := "u1", total_played := 1, correct_answers := 1, current_streak := 1,
    best_streak := 1, skipped := 0, selected_categories := none,
    onboarding_complete := false }

def rC1 : ProgressRecord :=
  { user_id := "u1", playable_id := "p1", answered := true, correct := true,
    skipped := none, hints_used := none, moves_used := none }

def dbC1 : DB := { users := [uC1], playables := [pParis], user_progress := [rC1] }

/-- A conclusive record for playable pA, to be piled up 10000 times. -/
def rBig : ProgressRecord :=
  { user_id := "u1", playable_id := "pA", answered := true, correct := true,
    skipped := none, hints_used := none, moves_used := none }

/-- A playable not named by the curated list and distinct from pA. -/
def pB : Playable :=
  { playable_id := "pB", ptype := "text", answer_type := "text_input",
    category := "GEOGRAPHY", title := "Question", correct_answer := "x",
    alternate_answers := none, answer_explanation := none, hints := none }

/-- A conclusive (answered) record for (u1, pB). -/
def rBigB : ProgressRecord :=
  { user_id := "u1", playable_id := "pB", answered := true, correct := false,
    skipped := none, hints_used := none, moves_used := none }

/-- A store where user u1 already owns exactly 10000 progress records
(reachable in the real system through the unbounded duplicate inserts of
submit_answer). -/
def dbBig : DB :=
  { users := [uFresh], playables := [pB], user_progress := List.replicate 10000 rBig }

/-- dbBig after a conclusive record for (u1, pB) lands BEYOND the 10000-cap
of the feed read. -/
def dbBigAnswered : DB :=
  { users := [uFresh], playables := [pB],
    user_progress := List.replicate 10000 rBig ++ [rBigB] }

/-- dbBig after u1 skips pB: the skip record is the 10001st for u1. -/
def dbBigSkipped : DB := (skip_playable dbBig "u1" "pB").1

/-! ### Lemmas and claim theorems -/

theorem findUser_mk (us : List User) (pls : List Playable) (prs : List ProgressRecord)
    (uid : String) :
    findUser ({ users := us, playables := pls, user_progress := prs } : DB) uid =
      us.find? (fun v => v.user_id == uid) := rfl

theorem find?_updateUser (users : List User) (uid : String) (f : User → User)
    (hf : ∀ u, (f u).user_id = u.user_id) :
    (updateUser users uid f).find? (fun u => u.user_id == uid) =
      (users.find? (fun u => u.user_id == uid)).map f := by
  induction users with
  | nil => rfl
  | cons u rest ih =>
    by_cases h : u.user_id = uid
    · have hb : (u.user_id == uid) = true := by simp [h]
      have hfb : ((f u).user_id == uid) = true := by simp [hf u, h]
      simp [updateUser, hb, hfb, List.find?_cons]
    · have hb : (u.user_id == uid) = false := by simp [h]
      simp [updateUser, hb, List.find?_cons, ih]

theorem mem_feed_cases {db : DB} {uid : String} {limit : Nat} {sample : List Playable}
    {q : Playable} (hq : q ∈ get_playables_feed db uid limit sample) :
    q ∈ curated_results db uid limit ∨ q ∈ sample := by
  simp only [get_playables_feed] at hq
  split at hq
  · exact Or.inl (List.take_subset _ _ hq)
  · split at hq
    · rcases List.mem_append.1 hq with h | h
      · exact Or.inl h
      · exact Or.inr h
    · exact Or.inl hq

theorem mem_played_ids {db : DB} {uid : String} {r : ProgressRecord}
    (hcount : (db.user_progress.filter (fun x => x.user_id == uid)).length ≤ 10000)
    (hr : r ∈ db.user_progress) (hru : r.user_id = uid) :
    r.playable_id ∈ played_ids db uid := by
  unfold played_ids
  rw [List.take_of_length_le hcount]
  exact List.mem_map_of_mem _ (List.mem_filter.2 ⟨hr, by simp [hru]⟩)

theorem not_played_of_mem_curated {db : DB} {uid : String} {limit : Nat} {q : Playable}
    (h : q ∈ curated_results db uid limit) :
    q.playable_id ∉ played_ids db uid := by
  unfold curated_results at h
  rcases List.mem_filterMap.1 h with ⟨pid, hpid, hfind⟩
  unfold findPlayable at hfind
  have hb := List.find?_some hfind
  have hid : q.playable_id = pid := eq_of_beq hb
  have hpid2 : pid ∈ unplayed_curated_ids db uid := List.take_subset _ _ hpid
  unfold unplayed_curated_ids at hpid2
  have h3 := (List.mem_filter.1 hpid2).2
  rw [hid]
  simpa using h3

theorem not_played_of_mem_pool {db : DB} {uid : String} {q : Playable}
    (h : q ∈ random_pool db uid) :
    q.playable_id ∉ played_ids db uid := by
  have h3 := (List.mem_filter.1 h).2
  intro hmem
  simp [List.mem_append] at h3
  exact h3.1 hmem

theorem feed_excludes_played_helper {db : DB} {uid : String} {limit : Nat}
    {sample : List Playable}
    (hcount : (db.user_progress.filter (fun x => x.user_id == uid)).length ≤ 10000)
    (hs : ∀ p ∈ sample, p ∈ random_pool db uid)
    {r : ProgressRecord} (hr : r ∈ db.user_progress) (hru : r.user_id = uid) :
    ∀ q ∈ get_playables_feed db uid limit sample, q.playable_id ≠ r.playable_id := by
  intro q hq heq
  have hmem := mem_played_ids hcount hr hru
  rw [← heq] at hmem
  rcases mem_feed_cases hq with h | h
  · exact not_played_of_mem_curated h hmem
  · exact not_played_of_mem_pool (hs q h) hmem

theorem mem_playables_of_mem_feed {db : DB} {uid : String} {limit : Nat}
    {sample : List Playable} (hs : ∀ p ∈ sample, p ∈ random_pool db uid) :
    ∀ q ∈ get_playables_feed db uid limit sample, q ∈ db.playables := by
  intro q hq
  rcases mem_feed_cases hq with h | h
  · unfold curated_results at h
    rcases List.mem_filterMap.1 h with ⟨pid, _, hfind⟩
    exact List.mem_of_find?_eq_some hfind
  · exact List.mem_of_mem_filter (hs q h)

theorem submit_answer_none (db : DB) (uid pid : String) (s : AnswerSubmission)
    (hp : findPlayable db pid = none) :
    submit_answer db uid pid s = (db, .error (.notFound "Playable not found")) := by
  unfold submit_answer
  rw [hp]

theorem submit_answer_eq (db : DB) (uid pid : String) (s : AnswerSubmission)
    (p : Playable) (u : User)
    (hp : findPlayable db pid = some p) (hu : findUser db uid = some u) :
    submit_answer db uid pid s =
      ({ users := updateUser db.users uid (fun v =>
            { v with
              total_played := (apply_grading_stats u (checkAnswer p s.answer)).total_played
              correct_answers := (apply_grading_stats u (checkAnswer p s.answer)).correct_answers
              current_streak := (apply_grading_stats u (checkAnswer p s.answer)).current_streak
              best_streak := (apply_grading_stats u (checkAnswer p s.answer)).best_streak })
         playables := db.playables
         user_progress := db.user_progress ++
           [{ user_id := uid, playable_id := pid, answered := true,
              correct := checkAnswer p s.answer, skipped := none, hints_used := none,
              moves_used := none }] },
       Except.ok
         { correct := checkAnswer p s.answer
           correct_answer := p.correct_answer
           answer_explanation := p.answer_explanation
           current_streak := (apply_grading_stats u (checkAnswer p s.answer)).current_streak
           best_streak := (apply_grading_stats u (checkAnswer p s.answer)).best_streak
           total_played := (apply_grading_stats u (checkAnswer p s.answer)).total_played
           correct_answers := (apply_grading_stats u (checkAnswer p s.answer)).correct_answers }) := by
  unfold submit_answer
  rw [hp]
  try dsimp only
  rw [show findUser
      ({ users := db.users
         playables := db.playables
         user_progress := db.user_progress ++
           [({ user_id := uid
               playable_id := pid
               answered := true
               correct := checkAnswer p s.answer
               skipped := none
               hints_used := none
               moves_used := none } : ProgressRecord)] } : DB) uid = some u from hu]

theorem submit_guess_answer_none (db : DB) (uid pid : String) (s : GuessAnswerSubmission)
    (hp : findPlayable db pid = none) :
    submit_guess_answer db uid pid s = (db, .error (.notFound "Playable not found")) := by
  unfold submit_guess_answer
  rw [hp]

theorem submit_guess_answer_wrong_type (db : DB) (uid pid : String)
    (s : GuessAnswerSubmission) (p : Playable)
    (hp : findPlayable db pid = some p) (ht : p.ptype ≠ "guess_the_x") :
    submit_guess_answer db uid pid s =
      (db, .error (.badRequest "This endpoint is only for \x27Guess the X\x27 playables")) := by
  unfold submit_guess_answer
  rw [hp]
  try dsimp only
  rw [if_pos ht]

theorem submit_guess_answer_feedback_err (db : DB) (uid pid : String)
    (s : GuessAnswerSubmission) (p : Playable)
    (hp : findPlayable db pid = some p) (ht : p.ptype = "guess_the_x")
    (hfb : (if checkAnswer p s.answer = true ∧
        s.hint_number ≤ (feedback_messages.length : Int) then
        pyIdx feedback_messages (s.hint_number - 1) else some "") = none) :
    submit_guess_answer db uid pid s = (db, .error .serverError) := by
  unfold submit_guess_answer
  rw [hp]
  try dsimp only
  rw [if_neg (by simp [ht])]
  try dsimp only
  rw [hfb]

theorem submit_guess_answer_conclusive (db : DB) (uid pid : String)
    (s : GuessAnswerSubmission) (p : Playable) (u : User) (fm : String)
    (hp : findPlayable db pid = some p) (ht : p.ptype = "guess_the_x")
    (hfb : (if checkAnswer p s.answer = true ∧
        s.hint_number ≤ (feedback_messages.length : Int) then
        pyIdx feedback_messages (s.hint_number - 1) else some "") = some fm)
    (hc : checkAnswer p s.answer = true ∨
        ((p.hints.getD []).length : Int) ≤ s.hint_number)
    (hu : findUser db uid = some u) :
    submit_guess_answer db uid pid s =
      ({ users := updateUser db.users uid (fun v =>
            { v with
              total_played := (apply_grading_stats u (checkAnswer p s.answer)).total_played
              correct_answers := (apply_grading_stats u (checkAnswer p s.answer)).correct_answers
              current_streak := (apply_grading_stats u (checkAnswer p s.answer)).current_streak
              best_streak := (apply_grading_stats u (checkAnswer p s.answer)).best_streak })
         playables := db.playables
         user_progress := db.user_progress ++
           [{ user_id := uid, playable_id := pid, answered := true,
              correct := checkAnswer p s.answer, skipped := none,
              hints_used := some s.hint_number, moves_used := none }] },
       Except.ok
         { correct := checkAnswer p s.answer
           correct_answer := some p.correct_answer
           feedback_message := fm
           hints_used := s.hint_number
           total_hints := (p.hints.getD []).length
           all_hints_exhausted :=
             decide (((p.hints.getD []).length : Int) ≤ s.hint_number) &&
               !(checkAnswer p s.answer)
           reveal_next_hint := none
           current_streak := some (apply_grading_stats u (checkAnswer p s.answer)).current_streak
           best_streak := some (apply_grading_stats u (checkAnswer p s.answer)).best_streak
           total_played := some (apply_grading_stats u (checkAnswer p s.answer)).total_played
           correct_answers :=
             some (apply_grading_stats u (checkAnswer p s.answer)).correct_answers }) := by
  unfold submit_guess_answer
  rw [hp]
  try dsimp only
  rw [if_neg (by simp [ht])]
  try dsimp only
  rw [hfb]
  try dsimp only
  rw [if_pos hc]
  try dsimp only
  rw [show findUser
      ({ users := db.users
         playables := db.playables
         user_progress := db.user_progress ++
           [({ user_id := uid
               playable_id := pid
               answered := true
               correct := checkAnswer p s.answer
               skipped := none
               hints_used := some s.hint_number
               moves_used := none } : ProgressRecord)] } : DB) uid = some u from hu]

theorem submit_guess_answer_inconclusive (db : DB) (uid pid : String)
    (s : GuessAnswerSubmission) (p : Playable)
    (hp : findPlayable db pid = some p) (ht : p.ptype = "guess_the_x")
    (hw : checkAnswer p s.answer = false)
    (hh : s.hint_number < ((p.hints.getD []).length : Int)) :
    submit_guess_answer db uid pid s =
      (db, Except.ok
        { correct := false
          correct_answer := none
          feedback_message := ""
          hints_used := s.hint_number
          total_hints := (p.hints.getD []).length
          all_hints_exhausted := false
          reveal_next_hint := some true
          current_streak := none
          best_streak := none
          total_played := none
          correct_answers := none }) := by
  unfold submit_guess_answer
  rw [hp]
  try dsimp only
  rw [if_neg (by simp [ht])]
  try dsimp only
  rw [if_neg (by simp [hw])]
  try dsimp only
  rw [if_neg (by simp [hw, not_le.2 hh])]

theorem submit_chess_none (db : DB) (uid pid : String) (s : ChessPuzzleSubmission)
    (hp : findPlayable db pid = none) :
    submit_chess_puzzle_result db uid pid s =
      (db, .error (.notFound "Playable not found")) := by
  unfold submit_chess_puzzle_result
  rw [hp]

theorem submit_chess_wrong_type (db : DB) (uid pid : String)
    (s : ChessPuzzleSubmission) (p : Playable)
    (hp : findPlayable db pid = some p) (ht : p.ptype ≠ "chess_mate_in_2") :
    submit_chess_puzzle_result db uid pid s =
      (db, .error (.badRequest "This endpoint is for chess puzzles only")) := by
  unfold submit_chess_puzzle_result
  rw [hp]
  try dsimp only
  rw [if_pos ht]

theorem submit_chess_eq (db : DB) (uid pid : String) (s : ChessPuzzleSubmission)
    (p : Playable) (u : User)
    (hp : findPlayable db pid = some p) (ht : p.ptype = "chess_mate_in_2")
    (hu : findUser db uid = some u) :
    submit_chess_puzzle_result db uid pid s =
      ({ users := updateUser db.users uid (fun v =>
            { v with
              total_played := (apply_grading_stats u s.solved).total_played
              correct_answers := (apply_grading_stats u s.solved).correct_answers
              current_streak := (apply_grading_stats u s.solved).current_streak
              best_streak := (apply_grading_stats u s.solved).best_streak })
         playables := db.playables
         user_progress := db.user_progress ++
           [{ user_id := uid, playable_id := pid, answered := true,
              correct := s.solved, skipped := none, hints_used := none,
              moves_used := some s.moves_used }] },
       Except.ok
         { correct := s.solved
           moves_used := s.moves_used
           current_streak := (apply_grading_stats u s.solved).current_streak
           best_streak := (apply_grading_stats u s.solved).best_streak
           total_played := (apply_grading_stats u s.solved).total_played
           correct_answers := (apply_grading_stats u s.solved).correct_answers }) := by
  unfold submit_chess_puzzle_result
  rw [hp]
  try dsimp only
  rw [if_neg (by simp [ht])]
  try dsimp only
  rw [show findUser
      ({ users := db.users
         playables := db.playables
         user_progress := db.user_progress ++
           [({ user_id := uid
               playable_id := pid
               answered := true
               correct := s.solved
               skipped := none
               hints_used := none
               moves_used := some s.moves_used } : ProgressRecord)] } : DB) uid =
      some u from hu]

theorem skip_none (db : DB) (uid pid : String)
    (hp : findPlayable db pid = none) :
    skip_playable db uid pid = (db, .error (.notFound "Playable not found")) := by
  unfold skip_playable
  rw [hp]

theorem skip_eq (db : DB) (uid pid : String) (p : Playable) (u : User)
    (hp : findPlayable db pid = some p) (hu : findUser db uid = some u) :
    skip_playable db uid pid =
      ({ users := updateUser db.users uid (fun v => { v with skipped := v.skipped + 1 })
         playables := db.playables
         user_progress := db.user_progress ++
           [{ user_id := uid, playable_id := pid, answered := false,
              correct := false, skipped := some true, hints_used := none,
              moves_used := none }] },
       Except.ok
         { skipped := true
           playable_id := pid
           current_streak := u.current_streak
           total_skipped := u.skipped + 1 }) := by
  have hu0 : db.users.find? (fun v => v.user_id == uid) = some u := hu
  unfold skip_playable
  rw [hp]
  try dsimp only
  rw [show findUser
      ({ users := updateUser db.users uid (fun v => { v with skipped := v.skipped + 1 })
         playables := db.playables
         user_progress := db.user_progress ++
           [({ user_id := uid
               playable_id := pid
               answered := false
               correct := false
               skipped := some true
               hints_used := none
               moves_used := none } : ProgressRecord)] } : DB) uid =
      some { u with skipped := u.skipped + 1 } by
    unfold findUser
    try dsimp only
    rw [find?_updateUser]
    · rw [hu0]
      rfl
    · intro v
      rfl]

theorem ags_total (u : User) (c : Bool) :
    (apply_grading_stats u c).total_played = u.total_played + 1 := by
  cases c <;> rfl

theorem ags_correct (u : User) (c : Bool) :
    (apply_grading_stats u c).correct_answers =
      u.correct_answers + (if c then 1 else 0) := by
  cases c <;> rfl

theorem ags_current (u : User) (c : Bool) :
    (apply_grading_stats u c).current_streak =
      (if c then u.current_streak + 1 else 0) := by
  cases c <;> rfl

theorem ags_best (u : User) (c : Bool) :
    (apply_grading_stats u c).best_streak =
      (if c then max u.best_streak (u.current_streak + 1) else u.best_streak) := by
  cases c <;> rfl

theorem statsInv_apply_grading_stats {u : User} (h : StatsInv u) (c : Bool) :
    StatsInv (apply_grading_stats u c) := by
  obtain ⟨h1, h2⟩ := h
  constructor
  · rw [ags_correct, ags_total]
    cases c <;> simp <;> omega
  · rw [ags_current, ags_best]
    cases c
    · simp
    · simp

theorem statsLe_apply_grading_stats (u : User) (c : Bool) :
    StatsLe u (apply_grading_stats u c) := by
  refine ⟨?_, ?_, ?_⟩
  · rw [ags_total]
    omega
  · rw [ags_correct]
    omega
  · rw [ags_best]
    cases c
    · simp
    · simp

theorem statsInv_inc_skipped {u : User} (h : StatsInv u) :
    StatsInv { u with skipped := u.skipped + 1 } := h

theorem statsLe_inc_skipped (u : User) :
    StatsLe u { u with skipped := u.skipped + 1 } :=
  ⟨le_refl _, le_refl _, le_refl _⟩

theorem statsLe_rfl (u : User) : StatsLe u u := ⟨le_refl _, le_refl _, le_refl _⟩

theorem statsLe_trans {u v w : User} (h1 : StatsLe u v) (h2 : StatsLe v w) :
    StatsLe u w :=
  ⟨le_trans h1.1 h2.1, le_trans h1.2.1 h2.2.1, le_trans h1.2.2 h2.2.2⟩

/-- One request either leaves the user document alone, applies the shared
grading-stats block to it, or bumps its skipped counter. -/
theorem runOp_findUser (uid : String) (db : DB) (op : Op) (u : User)
    (hu : findUser db uid = some u) :
    findUser (runOp uid db op) uid = some u ∨
      (∃ c, findUser (runOp uid db op) uid = some (apply_grading_stats u c)) ∨
      findUser (runOp uid db op) uid = some { u with skipped := u.skipped + 1 } := by
  have hu0 : db.users.find? (fun v => v.user_id == uid) = some u := hu
  cases op with
  | answer pid s =>
    simp only [runOp]
    cases hp : findPlayable db pid with
    | none =>
      rw [submit_answer_none db uid pid s hp]
      exact Or.inl hu
    | some p =>
      rw [submit_answer_eq db uid pid s p u hp hu]
      refine Or.inr (Or.inl ⟨checkAnswer p s.answer, ?_⟩)
      unfold findUser
      try dsimp only
      rw [find?_updateUser]
      · rw [hu0]
        rfl
      · intro v
        rfl
  | guess pid s =>
    simp only [runOp]
    cases hp : findPlayable db pid with
    | none =>
      rw [submit_guess_answer_none db uid pid s hp]
      exact Or.inl hu
    | some p =>
      by_cases ht : p.ptype = "guess_the_x"
      · cases hfb : (if checkAnswer p s.answer = true ∧
            s.hint_number ≤ (feedback_messages.length : Int) then
            pyIdx feedback_messages (s.hint_number - 1) else some "") with
        | none =>
          rw [submit_guess_answer_feedback_err db uid pid s p hp ht hfb]
          exact Or.inl hu
        | some fm =>
          by_cases hc : checkAnswer p s.answer = true ∨
              ((p.hints.getD []).length : Int) ≤ s.hint_number
          · rw [submit_guess_answer_conclusive db uid pid s p u fm hp ht hfb hc hu]
            refine Or.inr (Or.inl ⟨checkAnswer p s.answer, ?_⟩)
            unfold findUser
            try dsimp only
            rw [find?_updateUser]
            · rw [hu0]
              rfl
            · intro v
              rfl
          · have hw : checkAnswer p s.answer = false := by
              cases hcc : checkAnswer p s.answer
              · rfl
              · exact absurd (Or.inl hcc) hc
            have hh : s.hint_number < ((p.hints.getD []).length : Int) := by
              by_contra hx
              exact hc (Or.inr (not_lt.1 hx))
            rw [submit_guess_answer_inconclusive db uid pid s p hp ht hw hh]
            exact Or.inl hu
      · rw [submit_guess_answer_wrong_type db uid pid s p hp ht]
        exact Or.inl hu
  | chess pid s =>
    simp only [runOp]
    cases hp : findPlayable db pid with
    | none =>
      rw [submit_chess_none db uid pid s hp]
      exact Or.inl hu
    | some p =>
      by_cases ht : p.ptype = "chess_mate_in_2"
      · rw [submit_chess_eq db uid pid s p u hp ht hu]
        refine Or.inr (Or.inl ⟨s.solved, ?_⟩)
        unfold findUser
        try dsimp only
        rw [find?_updateUser]
        · rw [hu0]
          rfl
        · intro v
          rfl
      · rw [submit_chess_wrong_type db uid pid s p hp ht]
        exact Or.inl hu
  | skip pid =>
    simp only [runOp]
    cases hp : findPlayable db pid with
    | none =>
      rw [skip_none db uid pid hp]
      exact Or.inl hu
    | some p =>
      rw [skip_eq db uid pid p u hp hu]
      refine Or.inr (Or.inr ?_)
      unfold findUser
      try dsimp only
      rw [find?_updateUser]
      · rw [hu0]
        rfl
      · intro v
        rfl

theorem runOps_findUser (uid : String) :
    ∀ (ops : List Op) (db : DB) (u : User),
      findUser db uid = some u → StatsInv u →
      ∃ v, findUser (runOps uid db ops) uid = some v ∧ StatsInv v ∧ StatsLe u v := by
  intro ops
  induction ops with
  | nil => exact fun db u hu hinv => ⟨u, hu, hinv, statsLe_rfl u⟩
  | cons op rest ih =>
    intro db u hu hinv
    have hstep := runOp_findUser uid db op u hu
    rcases hstep with h | ⟨c, h⟩ | h
    · exact ih (runOp uid db op) u h hinv
    · obtain ⟨v, hv, hvinv, hvle⟩ :=
        ih (runOp uid db op) _ h (statsInv_apply_grading_stats hinv c)
      exact ⟨v, hv, hvinv, statsLe_trans (statsLe_apply_grading_stats u c) hvle⟩
    · obtain ⟨v, hv, hvinv, hvle⟩ :=
        ih (runOp uid db op) _ h (statsInv_inc_skipped hinv)
      exact ⟨v, hv, hvinv, statsLe_trans (statsLe_inc_skipped u) hvle⟩

/-- Claim C4 (amended): once a Progress Record exists for (U, P) and U has
at most 10000 progress records - so that the record falls within the
to_list(length=10000) read of the feed - P never appears in a getFeed
response for U, for any page size and any outcome of the random-sampling
stage.  Beyond that cap the exclusion fails (see the counterexample). -/
theorem feed_never_returns_played (db : DB) (uid : String) (limit : Nat)
    (sample : List Playable)
    (hcount : (db.user_progress.filter (fun x => x.user_id == uid)).length ≤ 10000)
    (hs : ∀ p ∈ sample, p ∈ random_pool db uid)
    (r : ProgressRecord) (hr : r ∈ db.user_progress) (hru : r.user_id = uid) :
    ∀ q ∈ get_playables_feed db uid limit sample, q.playable_id ≠ r.playable_id :=
  feed_excludes_played_helper hcount hs hr hru

theorem feed_never_returns_played_witness :
    (dbC4.user_progress.filter (fun x => x.user_id == "u1")).length ≤ 10000 ∧
      rC4 ∈ dbC4.user_progress ∧ rC4.user_id = "u1" ∧
      ∀ q ∈ get_playables_feed dbC4 "u1" 10 [], q.playable_id ≠ rC4.playable_id :=
  ⟨by decide, by decide, rfl,
    feed_never_returns_played dbC4 "u1" 10 [] (by decide) (by decide) rC4 (by decide) rfl⟩

/-- Claim C2 (amended): the feed returns stored Playable documents verbatim,
with every stored field included - nothing, in particular not
correct_answer of an unanswered multi-shot playable, is withheld. -/
theorem feed_returns_stored_documents (db : DB) (uid : String) (limit : Nat)
    (sample : List Playable) (hs : ∀ p ∈ sample, p ∈ random_pool db uid) :
    ∀ q ∈ get_playables_feed db uid limit sample, q ∈ db.playables :=
  mem_playables_of_mem_feed hs

theorem feed_returns_stored_documents_witness :
    (∀ p ∈ ([] : List Playable), p ∈ random_pool dbC2a "u1") ∧
      ∀ q ∈ get_playables_feed dbC2a "u1" 1 [], q ∈ dbC2a.playables :=
  ⟨by decide, feed_returns_stored_documents dbC2a "u1" 1 [] (by decide)⟩

/-- Claim C2 counterexample: the two stores differ only in the
correct_answer of an unanswered guess_the_x playable, yet the feed
responses differ - and the response exposes the stored correct_answer. -/
theorem feed_depends_on_correct_answer :
    dbC2a.user_progress = [] ∧
    pC2.ptype = "guess_the_x" ∧
    dbC2b = { dbC2a with playables := [{ pC2 with correct_answer := "Answer B" }] } ∧
    pC2.correct_answer ≠ "Answer B" ∧
    (get_playables_feed dbC2a "u1" 1 []).map (fun q => q.correct_answer) = ["Answer A"] ∧
    get_playables_feed dbC2a "u1" 1 [] ≠ get_playables_feed dbC2b "u1" 1 [] := by
  decide

/-- Claim C3 (amended): the random-fill pool of the feed is exactly the set
of playables that are neither curated nor among the playable ids of the
first 10000 progress records read for the user (all of them, whenever the
user has at most 10000 records) - it carries no category condition at all,
whatever the value of onboarding_complete or selected_categories (the
reachable endpoint never reads them), and the curated prefix is likewise
never category-filtered. -/
theorem random_pool_unfiltered (db : DB) (uid : String) (p : Playable) :
    p ∈ random_pool db uid ↔
      p ∈ db.playables ∧ p.playable_id ∉ played_ids db uid ∧
        p.playable_id ∉ CURATED_PLAYABLE_IDS := by
  simp [random_pool, List.mem_filter, List.mem_append, not_or]

/-- Claim C3 counterexample: a user with onboarding_complete = true and a
non-empty selected_categories still gets random-fill items from a category
outside the selection. -/
theorem random_fill_ignores_selected_categories :
    uC3.onboarding_complete = true ∧
    uC3.selected_categories = some ["SCIENCE", "HISTORY", "ART"] ∧
    findUser dbC3 "u1" = some uC3 ∧
    ValidSample dbC3 "u1" 10 [pC3] ∧
    pC3 ∈ get_playables_feed dbC3 "u1" 10 [pC3] ∧
    pC3.category ∉ ["SCIENCE", "HISTORY", "ART"] := by
  refine ⟨rfl, rfl, rfl, ⟨by decide, by decide⟩, by decide, by decide⟩

/-- Claim C5 (confirmed): every conclusive grading - a plain answer
submission, and a conclusive guess_the_x submission - updates the counters
exactly as specified: total_played + 1 always, correct_answers + 1 iff
correct, streak incremented and best_streak = max(best_streak, new streak)
on success, streak reset with best_streak untouched on failure. -/
theorem grading_updates_stats :
    (∀ (db : DB) (uid pid : String) (s : AnswerSubmission) (p : Playable) (u : User),
      findPlayable db pid = some p → findUser db uid = some u →
      ∃ v, findUser (submit_answer db uid pid s).1 uid = some v ∧
        v.total_played = u.total_played + 1 ∧
        v.correct_answers = u.correct_answers + (if checkAnswer p s.answer then 1 else 0) ∧
        v.current_streak = (if checkAnswer p s.answer then u.current_streak + 1 else 0) ∧
        v.best_streak = (if checkAnswer p s.answer then
          max u.best_streak (u.current_streak + 1) else u.best_streak)) ∧
    (∀ (db : DB) (uid pid : String) (s : GuessAnswerSubmission) (p : Playable) (u : User),
      findPlayable db pid = some p → p.ptype = "guess_the_x" →
      1 ≤ s.hint_number →
      (checkAnswer p s.answer = true ∨ ((p.hints.getD []).length : Int) ≤ s.hint_number) →
      findUser db uid = some u →
      ∃ v, findUser (submit_guess_answer db uid pid s).1 uid = some v ∧
        v.total_played = u.total_played + 1 ∧
        v.correct_answers = u.correct_answers + (if checkAnswer p s.answer then 1 else 0) ∧
        v.current_streak = (if checkAnswer p s.answer then u.current_streak + 1 else 0) ∧
        v.best_streak = (if checkAnswer p s.answer then
          max u.best_streak (u.current_streak + 1) else u.best_streak)) := by
  constructor
  · intro db uid pid s p u hp hu
    rw [submit_answer_eq db uid pid s p u hp hu]
    refine ⟨apply_grading_stats u (checkAnswer p s.answer), ?_,
      ags_total u _, ags_correct u _, ags_current u _, ags_best u _⟩
    unfold findUser
    try dsimp only
    rw [find?_updateUser]
    · rw [show db.users.find? (fun v => v.user_id == uid) = some u from hu]
      rfl
    · intro v
      rfl
  · intro db uid pid s p u hp ht h1 hc hu
    have h5len : feedback_messages.length = 5 := rfl
    obtain ⟨fm, hfb⟩ : ∃ fm, (if checkAnswer p s.answer = true ∧
        s.hint_number ≤ (feedback_messages.length : Int) then
        pyIdx feedback_messages (s.hint_number - 1) else some "") = some fm := by
      by_cases hcnd : checkAnswer p s.answer = true ∧
          s.hint_number ≤ (feedback_messages.length : Int)
      · rw [if_pos hcnd]
        unfold pyIdx
        rw [if_pos (by omega)]
        have hle := hcnd.2
        rw [h5len] at hle
        have hlt : (s.hint_number - 1).toNat < feedback_messages.length := by
          rw [h5len]
          omega
        rw [List.getElem?_eq_getElem hlt]
        exact ⟨_, rfl⟩
      · rw [if_neg hcnd]
        exact ⟨"", rfl⟩
    rw [submit_guess_answer_conclusive db uid pid s p u fm hp ht hfb hc hu]
    refine ⟨apply_grading_stats u (checkAnswer p s.answer), ?_,
      ags_total u _, ags_correct u _, ags_current u _, ags_best u _⟩
    unfold findUser
    try dsimp only
    rw [find?_updateUser]
    · rw [show db.users.find? (fun v => v.user_id == uid) = some u from hu]
      rfl
    · intro v
      rfl

theorem grading_updates_stats_witness :
    ∃ v, findUser (submit_answer dbPlain "u1" "p1" { answer := "paris" }).1 "u1" = some v ∧
      v.total_played = uFresh.total_played + 1 ∧
      v.correct_answers = uFresh.correct_answers +
        (if checkAnswer pParis "paris" then 1 else 0) ∧
      v.current_streak = (if checkAnswer pParis "paris" then uFresh.current_streak + 1 else 0) ∧
      v.best_streak = (if checkAnswer pParis "paris" then
        max uFresh.best_streak (uFresh.current_streak + 1) else uFresh.best_streak) :=
  grading_updates_stats.1 dbPlain "u1" "p1" { answer := "paris" } pParis uFresh rfl rfl

/-- Claim C6 (confirmed): starting from a fresh account, after any sequence
of grading and skip requests the invariants correct_answers less-or-equal
total_played and current_streak less-or-equal best_streak hold, and
total_played, correct_answers and best_streak never decrease across any
later continuation of the sequence. -/
theorem stats_invariants_over_sequences (db : DB) (uid : String) (u0 : User)
    (hu : findUser db uid = some u0)
    (h1 : u0.total_played = 0) (h2 : u0.correct_answers = 0)
    (h3 : u0.current_streak = 0) (h4 : u0.best_streak = 0) :
    ∀ ops : List Op, ∃ v, findUser (runOps uid db ops) uid = some v ∧
      v.correct_answers ≤ v.total_played ∧ v.current_streak ≤ v.best_streak ∧
      ∀ more : List Op, ∃ w,
        findUser (runOps uid (runOps uid db ops) more) uid = some w ∧
        v.total_played ≤ w.total_played ∧ v.correct_answers ≤ w.correct_answers ∧
        v.best_streak ≤ w.best_streak := by
  intro ops
  have hinv0 : StatsInv u0 := ⟨by omega, by omega⟩
  obtain ⟨v, hv, hvinv, _⟩ := runOps_findUser uid ops db u0 hu hinv0
  refine ⟨v, hv, hvinv.1, hvinv.2, ?_⟩
  intro more
  obtain ⟨w, hw, _, hle⟩ := runOps_findUser uid more (runOps uid db ops) v hv hvinv
  exact ⟨w, hw, hle.1, hle.2.1, hle.2.2⟩

theorem stats_invariants_over_sequences_witness :
    ∃ v, findUser (runOps "u1" dbPlain [Op.answer "p1" { answer := "paris" }]) "u1" =
        some v ∧
      v.correct_answers ≤ v.total_played ∧ v.current_streak ≤ v.best_streak ∧
      ∀ more : List Op, ∃ w,
        findUser (runOps "u1" (runOps "u1" dbPlain
          [Op.answer "p1" { answer := "paris" }]) more) "u1" = some w ∧
        v.total_played ≤ w.total_played ∧ v.correct_answers ≤ w.correct_answers ∧
        v.best_streak ≤ w.best_streak :=
  stats_invariants_over_sequences dbPlain "u1" uFresh rfl rfl rfl rfl rfl
    [Op.answer "p1" { answer := "paris" }]

/-- Claim C7 (confirmed): an incorrect guess_the_x submission with
hintNumber below totalHints is inconclusive - the database is completely
unchanged (no Progress Record, no stat change), the response instructs the
caller to reveal the next hint and carries correct_answer = None. -/
theorem guess_inconclusive_frame (db : DB) (uid pid : String)
    (s : GuessAnswerSubmission) (p : Playable)
    (hp : findPlayable db pid = some p)
    (ht : p.ptype = "guess_the_x")
    (hw : checkAnswer p s.answer = false)
    (hh : s.hint_number < ((p.hints.getD []).length : Int)) :
    submit_guess_answer db uid pid s =
      (db, Except.ok
        { correct := false
          correct_answer := none
          feedback_message := ""
          hints_used := s.hint_number
          total_hints := (p.hints.getD []).length
          all_hints_exhausted := false
          reveal_next_hint := some true
          current_streak := none
          best_streak := none
          total_played := none
          correct_answers := none }) :=
  submit_guess_answer_inconclusive db uid pid s p hp ht hw hh

theorem guess_inconclusive_frame_witness :
    submit_guess_answer dbGuess "u1" "p9" { answer := "wrong", hint_number := 1 } =
      (dbGuess, Except.ok
        { correct := false
          correct_answer := none
          feedback_message := ""
          hints_used := 1
          total_hints := 3
          all_hints_exhausted := false
          reveal_next_hint := some true
          current_streak := none
          best_streak := none
          total_played := none
          correct_answers := none }) :=
  guess_inconclusive_frame dbGuess "u1" "p9" { answer := "wrong", hint_number := 1 }
    pGuess rfl rfl (by decide) (by decide)

/-- Claim C8 (amended): skipping an existing playable bumps the skipped
counter by one, leaves current_streak (and every grading counter)
unchanged, and writes a Progress Record with skipped = true,
answered = false, correct = false; whenever the user had fewer than 10000
progress records - so that the new record falls within the
to_list(length=10000) read of the feed - the item is thereby excluded from
every later feed.  Beyond that cap the exclusion fails (counterexample). -/
theorem skip_behavior (db : DB) (uid pid : String) (p : Playable) (u : User)
    (hp : findPlayable db pid = some p) (hu : findUser db uid = some u) :
    (∃ v, findUser (skip_playable db uid pid).1 uid = some v ∧
      v.skipped = u.skipped + 1 ∧ v.current_streak = u.current_streak ∧
      v.total_played = u.total_played ∧ v.correct_answers = u.correct_answers ∧
      v.best_streak = u.best_streak) ∧
    (skip_playable db uid pid).1.user_progress =
      db.user_progress ++
        [{ user_id := uid, playable_id := pid, answered := false, correct := false,
           skipped := some true, hints_used := none, moves_used := none }] ∧
    ((db.user_progress.filter (fun x => x.user_id == uid)).length < 10000 →
      ∀ (limit : Nat) (sample : List Playable),
        (∀ q ∈ sample, q ∈ random_pool (skip_playable db uid pid).1 uid) →
        ∀ q ∈ get_playables_feed (skip_playable db uid pid).1 uid limit sample,
          q.playable_id ≠ pid) := by
  rw [skip_eq db uid pid p u hp hu]
  refine ⟨⟨{ u with skipped := u.skipped + 1 }, ?_, rfl, rfl, rfl, rfl, rfl⟩, rfl, ?_⟩
  · unfold findUser
    try dsimp only
    rw [find?_updateUser]
    · rw [show db.users.find? (fun v => v.user_id == uid) = some u from hu]
      rfl
    · intro v
      rfl
  · intro hcount limit sample hsamp q hq heq
    have hr : ({ user_id := uid, playable_id := pid, answered := false,
                 correct := false, skipped := some true, hints_used := none,
                 moves_used := none } : ProgressRecord) ∈
        ({ users := updateUser db.users uid (fun v => { v with skipped := v.skipped + 1 })
           playables := db.playables
           user_progress := db.user_progress ++
             [{ user_id := uid, playable_id := pid, answered := false,
                correct := false, skipped := some true, hints_used := none,
                moves_used := none }] } : DB).user_progress := by
      simp
    have hcount2 :
        ((({ users := updateUser db.users uid (fun v => { v with skipped := v.skipped + 1 })
             playables := db.playables
             user_progress := db.user_progress ++
               [{ user_id := uid, playable_id := pid, answered := false,
                  correct := false, skipped := some true, hints_used := none,
                  moves_used := none }] } : DB).user_progress).filter
          (fun x => x.user_id == uid)).length ≤ 10000 := by
      show ((db.user_progress ++
          [({ user_id := uid, playable_id := pid, answered := false,
              correct := false, skipped := some true, hints_used := none,
              moves_used := none } : ProgressRecord)]).filter
            (fun x => x.user_id == uid)).length ≤ 10000
      rw [List.filter_append, List.length_append]
      have hone := List.length_filter_le (fun x => x.user_id == uid)
        [({ user_id := uid, playable_id := pid, answered := false,
            correct := false, skipped := some true, hints_used := none,
            moves_used := none } : ProgressRecord)]
      simp only [List.length_cons, List.length_nil] at hone
      omega
    exact feed_excludes_played_helper hcount2 hsamp hr rfl q hq heq

theorem skip_behavior_witness :
    (∃ v, findUser (skip_playable dbPlain "u1" "p1").1 "u1" = some v ∧
      v.skipped = uFresh.skipped + 1 ∧ v.current_streak = uFresh.current_streak ∧
      v.total_played = uFresh.total_played ∧ v.correct_answers = uFresh.correct_answers ∧
      v.best_streak = uFresh.best_streak) ∧
    (skip_playable dbPlain "u1" "p1").1.user_progress =
      dbPlain.user_progress ++
        [{ user_id := "u1", playable_id := "p1", answered := false, correct := false,
           skipped := some true, hints_used := none, moves_used := none }] ∧
    ((dbPlain.user_progress.filter (fun x => x.user_id == "u1")).length < 10000 →
      ∀ (limit : Nat) (sample : List Playable),
        (∀ q ∈ sample, q ∈ random_pool (skip_playable dbPlain "u1" "p1").1 "u1") →
        ∀ q ∈ get_playables_feed (skip_playable dbPlain "u1" "p1").1 "u1" limit sample,
          q.playable_id ≠ "p1") :=
  skip_behavior dbPlain "u1" "p1" pParis uFresh rfl rfl

/-- Claim C9 (amended): on a correct guess_the_x submission with hintNumber
at least 1, the feedback message is the entry of the fixed list at index
hintNumber (1-based) while hintNumber is within the list, and the EMPTY
string - not the clamped last entry - for any hintNumber beyond the list
length. -/
theorem guess_feedback_selection (db : DB) (uid pid : String)
    (s : GuessAnswerSubmission) (p : Playable) (u : User)
    (hp : findPlayable db pid = some p) (ht : p.ptype = "guess_the_x")
    (hcorr : checkAnswer p s.answer = true) (h1 : 1 ≤ s.hint_number)
    (hu : findUser db uid = some u) :
    ∃ r, (submit_guess_answer db uid pid s).2 = Except.ok r ∧
      r.feedback_message =
        (if s.hint_number ≤ (feedback_messages.length : Int) then
          feedback_messages.getD (s.hint_number - 1).toNat "" else "") := by
  have h5len : feedback_messages.length = 5 := rfl
  by_cases h5 : s.hint_number ≤ (feedback_messages.length : Int)
  · have hle := h5
    rw [h5len] at hle
    have hlt : (s.hint_number - 1).toNat < feedback_messages.length := by
      rw [h5len]
      omega
    have hfb : (if checkAnswer p s.answer = true ∧
        s.hint_number ≤ (feedback_messages.length : Int) then
        pyIdx feedback_messages (s.hint_number - 1) else some "") =
        some (feedback_messages.getD (s.hint_number - 1).toNat "") := by
      rw [if_pos ⟨hcorr, h5⟩]
      unfold pyIdx
      rw [if_pos (by omega)]
      rw [List.getElem?_eq_getElem hlt]
      rw [List.getD_eq_getElem?_getD, List.getElem?_eq_getElem hlt]
      rfl
    rw [submit_guess_answer_conclusive db uid pid s p u _ hp ht hfb (Or.inl hcorr) hu]
    exact ⟨_, rfl, by rw [if_pos h5]⟩
  · have hfb : (if checkAnswer p s.answer = true ∧
        s.hint_number ≤ (feedback_messages.length : Int) then
        pyIdx feedback_messages (s.hint_number - 1) else some "") = some "" := by
      rw [if_neg (by tauto)]
    rw [submit_guess_answer_conclusive db uid pid s p u "" hp ht hfb (Or.inl hcorr) hu]
    exact ⟨_, rfl, by rw [if_neg h5]⟩

theorem guess_feedback_selection_witness :
    ∃ r, (submit_guess_answer dbGuess "u1" "p9"
        { answer := "Rome", hint_number := 2 }).2 = Except.ok r ∧
      r.feedback_message =
        (if (2 : Int) ≤ (feedback_messages.length : Int) then
          feedback_messages.getD ((2 : Int) - 1).toNat "" else "") :=
  guess_feedback_selection dbGuess "u1" "p9" { answer := "Rome", hint_number := 2 }
    pGuess uFresh rfl rfl (by decide) (by decide) rfl

/-- Claim C9 counterexample: a correct submission at hintNumber = 6 (beyond
the 5-entry feedback list) yields the empty feedback message, not the
clamped last entry that the claim prescribes. -/
theorem guess_feedback_not_clamped :
    (submit_guess_answer dbGuess "u1" "p9" { answer := "Rome", hint_number := 6 }).2 =
      Except.ok
        { correct := true
          correct_answer := some "Rome"
          feedback_message := ""
          hints_used := 6
          total_hints := 3
          all_hints_exhausted := false
          reveal_next_hint := none
          current_streak := some 1
          best_streak := some 1
          total_played := some 1
          correct_answers := some 1 } ∧
    feedback_messages.getLastD "" ≠ "" := by
  constructor
  · rfl
  · decide

/-- Claim C10 (confirmed): category selection rejects lists of fewer than 3
entries with a 400 before any write (the whole database, hence
selected_categories and onboarding_complete, is untouched); for 3 or more
entries it stores exactly the submitted list and sets
onboarding_complete. -/
theorem select_categories_spec (db : DB) (uid : String)
    (req : CategorySelectionRequest) (u : User)
    (hu : findUser db uid = some u) :
    (req.categories.length < 3 →
      select_categories db uid req =
        (db, Except.error (.badRequest "Please select at least 3 categories"))) ∧
    (3 ≤ req.categories.length →
      (select_categories db uid req).2 = Except.ok
        { success := true
          message := "Categories saved successfully"
          selected_categories := req.categories } ∧
      ∃ v, findUser (select_categories db uid req).1 uid = some v ∧
        v.selected_categories = some req.categories ∧ v.onboarding_complete = true) := by
  constructor
  · intro hlt
    unfold select_categories
    rw [if_pos hlt]
  · intro hge
    unfold select_categories
    rw [if_neg (not_lt.2 hge)]
    refine ⟨rfl, { u with selected_categories := some req.categories
                          onboarding_complete := true }, ?_, rfl, rfl⟩
    unfold findUser
    try dsimp only
    rw [find?_updateUser]
    · rw [show db.users.find? (fun v => v.user_id == uid) = some u from hu]
      rfl
    · intro v
      rfl

theorem select_categories_spec_witness :
    ((⟨["SCIENCE", "HISTORY"]⟩ : CategorySelectionRequest).categories.length < 3 →
      select_categories dbPlain "u1" ⟨["SCIENCE", "HISTORY"]⟩ =
        (dbPlain, Except.error (.badRequest "Please select at least 3 categories"))) ∧
    (3 ≤ (⟨["SCIENCE", "HISTORY"]⟩ : CategorySelectionRequest).categories.length →
      (select_categories dbPlain "u1" ⟨["SCIENCE", "HISTORY"]⟩).2 = Except.ok
        { success := true
          message := "Categories saved successfully"
          selected_categories := ["SCIENCE", "HISTORY"] } ∧
      ∃ v, findUser (select_categories dbPlain "u1" ⟨["SCIENCE", "HISTORY"]⟩).1 "u1" =
          some v ∧
        v.selected_categories = some ["SCIENCE", "HISTORY"] ∧
        v.onboarding_complete = true) :=
  select_categories_spec dbPlain "u1" ⟨["SCIENCE", "HISTORY"]⟩ uFresh rfl

/-- Claim C1 (amended): submit_answer performs no duplicate detection -
even when a conclusive Progress Record for the (user, playable) pair
already exists, a further submission is re-graded, appends a second
Progress Record, and increments total_played again. -/
theorem duplicate_submission_regrades (db : DB) (uid pid : String)
    (s : AnswerSubmission) (p : Playable) (u : User) (r : ProgressRecord)
    (hp : findPlayable db pid = some p) (hu : findUser db uid = some u)
    (_hr : r ∈ db.user_progress) (_hruid : r.user_id = uid)
    (_hrpid : r.playable_id = pid)
    (_hconc : r.answered = true ∨ r.skipped = some true) :
    (submit_answer db uid pid s).1.user_progress =
      db.user_progress ++
        [{ user_id := uid, playable_id := pid, answered := true,
           correct := checkAnswer p s.answer, skipped := none, hints_used := none,
           moves_used := none }] ∧
    ∃ v, findUser (submit_answer db uid pid s).1 uid = some v ∧
      v.total_played = u.total_played + 1 := by
  rw [submit_answer_eq db uid pid s p u hp hu]
  refine ⟨rfl, apply_grading_stats u (checkAnswer p s.answer), ?_, ags_total u _⟩
  unfold findUser
  try dsimp only
  rw [find?_updateUser]
  · rw [show db.users.find? (fun v => v.user_id == uid) = some u from hu]
    rfl
  · intro v
    rfl

theorem duplicate_submission_regrades_witness :
    rC1 ∈ dbC1.user_progress ∧ rC1.answered = true ∧
    ((submit_answer dbC1 "u1" "p1" { answer := "Paris" }).1.user_progress =
      dbC1.user_progress ++
        [{ user_id := "u1", playable_id := "p1", answered := true,
           correct := checkAnswer pParis "Paris", skipped := none, hints_used := none,
           moves_used := none }] ∧
    ∃ v, findUser (submit_answer dbC1 "u1" "p1" { answer := "Paris" }).1 "u1" = some v ∧
      v.total_played = uC1.total_played + 1) :=
  ⟨by decide, rfl,
    duplicate_submission_regrades dbC1 "u1" "p1" { answer := "Paris" } pParis uC1 rC1
      rfl rfl (by decide) rfl rfl (Or.inl rfl)⟩

/-- Claim C1 counterexample: with a conclusive Progress Record already in
place for (u1, p1) and total_played = 1, a repeated submission succeeds,
adds a second Progress Record and moves total_played to 2 - the claim says
it must change neither. -/
theorem duplicate_submission_changes_state :
    rC1 ∈ dbC1.user_progress ∧ rC1.answered = true ∧ rC1.user_id = "u1" ∧
    rC1.playable_id = "p1" ∧ uC1.total_played = 1 ∧
    (submit_answer dbC1 "u1" "p1" { answer := "Paris" }).1.user_progress.length =
      dbC1.user_progress.length + 1 ∧
    findUser (submit_answer dbC1 "u1" "p1" { answer := "Paris" }).1 "u1" =
      some { user_id := "u1", total_played := 2, correct_answers := 2,
             current_streak := 2, best_streak := 2, skipped := 0,
             selected_categories := none, onboarding_complete := false } := by
  decide


/-! Lemmas about stores where one user already owns 10000 progress
records, and the two counterexamples they support: beyond the
to_list(length=10000) cap of the feed read (server.py lines 521-524) a
recorded playable is served again. -/

theorem contains_eq_false_of_not_mem {l : List String} {a : String} (h : a ∉ l) :
    l.contains a = false := by
  cases hc : l.contains a
  · rfl
  · exact absurd (by simpa using hc) h

theorem played_ids_big (us : List User) (pls : List Playable)
    (tail : List ProgressRecord) :
    played_ids ({ users := us
                  playables := pls
                  user_progress := List.replicate 10000 rBig ++ tail } : DB) "u1" =
      List.replicate 10000 "pA" := by
  unfold played_ids
  show (((List.replicate 10000 rBig ++ tail).filter
      (fun r => r.user_id == "u1")).take 10000).map (fun r => r.playable_id) =
    List.replicate 10000 "pA"
  rw [List.filter_append, List.filter_replicate,
    if_pos (show (rBig.user_id == "u1") = true from rfl),
    List.take_append_of_le_length (by rw [List.length_replicate]),
    List.take_of_length_le (by rw [List.length_replicate]), List.map_replicate]
  rfl

theorem pB_mem_pool_big (us : List User) (pls : List Playable)
    (tail : List ProgressRecord) (hpl : pls = [pB]) :
    pB ∈ random_pool ({ users := us
                        playables := pls
                        user_progress := List.replicate 10000 rBig ++ tail } : DB)
      "u1" := by
  unfold random_pool
  refine List.mem_filter.2 ⟨?_, ?_⟩
  · show pB ∈ pls
    rw [hpl]
    simp
  · have h1 : pB.playable_id ∉
        List.replicate 10000 "pA" ++ CURATED_PLAYABLE_IDS := by
      intro hmem
      rcases List.mem_append.1 hmem with h | h
      · exact absurd (List.eq_of_mem_replicate h) (by decide)
      · revert h
        decide
    rw [played_ids_big, contains_eq_false_of_not_mem h1]
    rfl

theorem curated_results_big (db : DB) (hpl : db.playables = [pB]) (limit : Nat) :
    curated_results db "u1" limit = [] := by
  unfold curated_results
  rw [List.filterMap_eq_nil_iff]
  intro pid hpid
  have h2 : pid ∈ CURATED_PLAYABLE_IDS :=
    List.mem_of_mem_filter (List.take_subset _ _ hpid)
  unfold findPlayable
  rw [hpl]
  fin_cases h2 <;> rfl

theorem feed_big (db : DB) (hpl : db.playables = [pB]) :
    get_playables_feed db "u1" 10 [pB] = [pB] := by
  unfold get_playables_feed
  rw [curated_results_big db hpl]
  simp

/-- Claim C4 counterexample: user u1 holds 10000 records for pA and one
conclusive (answered) record for (u1, pB); the feed read caps at 10000
documents, misses the pB record, and a later feed returns pB again -
refuting the unconditional claim that a recorded playable never
reappears. -/
theorem feed_exclusion_fails_beyond_cap :
    rBigB ∈ dbBigAnswered.user_progress ∧ rBigB.user_id = "u1" ∧
    rBigB.playable_id = "pB" ∧ rBigB.answered = true ∧
    ValidSample dbBigAnswered "u1" 10 [pB] ∧
    pB ∈ get_playables_feed dbBigAnswered "u1" 10 [pB] ∧
    pB.playable_id = "pB" := by
  refine ⟨?_, rfl, rfl, rfl, ⟨?_, ?_⟩, ?_, rfl⟩
  · show rBigB ∈ List.replicate 10000 rBig ++ [rBigB]
    exact List.mem_append_right _ (by simp)
  · rw [curated_results_big dbBigAnswered rfl]
    decide
  · intro q hq
    simp at hq
    subst hq
    exact pB_mem_pool_big [uFresh] [pB] [rBigB] rfl
  · rw [feed_big dbBigAnswered rfl]
    simp

/-- Claim C8 counterexample: with 10000 prior records for u1, the skip
record for (u1, pB) is the 10001st progress document; it falls beyond the
feed read cap and pB appears in a later feed, so the skip did not
permanently exclude the item. -/
theorem skip_exclusion_fails_beyond_cap :
    (dbBig.user_progress.filter (fun x => x.user_id == "u1")).length = 10000 ∧
    dbBigSkipped = (skip_playable dbBig "u1" "pB").1 ∧
    (∃ r ∈ dbBigSkipped.user_progress,
      r.user_id = "u1" ∧ r.playable_id = "pB" ∧ r.skipped = some true) ∧
    ValidSample dbBigSkipped "u1" 10 [pB] ∧
    pB ∈ get_playables_feed dbBigSkipped "u1" 10 [pB] := by
  have hdb : dbBigSkipped =
      ({ users := updateUser [uFresh] "u1" (fun v => { v with skipped := v.skipped + 1 })
         playables := [pB]
         user_progress := List.replicate 10000 rBig ++
           [({ user_id := "u1", playable_id := "pB", answered := false,
               correct := false, skipped := some true, hints_used := none,
               moves_used := none } : ProgressRecord)] } : DB) := by
    show (skip_playable dbBig "u1" "pB").1 = _
    rw [skip_eq dbBig "u1" "pB" pB uFresh rfl rfl]
    rfl
  refine ⟨?_, rfl, ?_, ⟨?_, ?_⟩, ?_⟩
  · show ((List.replicate 10000 rBig).filter (fun x => x.user_id == "u1")).length = 10000
    rw [List.filter_replicate, if_pos (show (rBig.user_id == "u1") = true from rfl),
      List.length_replicate]
  · rw [hdb]
    exact ⟨({ user_id := "u1", playable_id := "pB", answered := false, correct := false,
              skipped := some true, hints_used := none,
              moves_used := none } : ProgressRecord),
      List.mem_append_right _ (by simp), rfl, rfl, rfl⟩
  · rw [hdb, curated_results_big _ rfl]
    decide
  · intro q hq
    simp at hq
    subst hq
    rw [hdb]
    exact pB_mem_pool_big _ [pB] _ rfl
  · rw [hdb, feed_big _ rfl]
    simp

end DubDub
